import Mathlib

/-!
Verification development for the ManimEffects backend
(src/backend/src/main.py and src/backend/src/server.py).

The Python code is shallowly embedded: strings are Lean `String`s
(lists of Unicode code points, matching Python's code-point indexing),
`str.find` / slicing / `str.strip` are modelled by executable functions
below, fallible endpoint code is modelled with `Except`, and the two
external collaborators (the LLM and the `manim` subprocess) are
modelled by passing their observable outputs in as arguments.
-/

/-! ## Python string primitives -/

/-- The whitespace characters stripped by Python's `str.strip()` and
matched by the regex class `\s` (ASCII fragment; the Unicode extras of
Python's definition are outside the model and unused by the repository's
inputs). -/
def isPySpace (c : Char) : Bool :=
  c = ' ' || c = '\t' || c = '\n' || c = '\r' || c = '\x0b' || c = '\x0c'

/-- Strip `isPySpace` characters from both ends of a character list. -/
def stripChars (l : List Char) : List Char :=
  ((l.dropWhile isPySpace).reverse.dropWhile isPySpace).reverse

/-- Python's `str.strip()` with no argument. -/
def pyStrip (s : String) : String :=
  String.mk (stripChars s.data)

/-- Helper for `pyFind`: scan the remaining characters `l`, whose first
character sits at index `i` of the original string, for the first
position where `ndl` is a prefix. -/
def findFromAux (ndl : List Char) : List Char → Nat → Option Nat
  | [], i => if ndl.isEmpty then some i else none
  | c :: rest, i =>
    if ndl.isPrefixOf (c :: rest) then some i else findFromAux ndl rest (i + 1)

/-- Python's `s.find(ndl, start)` for a non-negative `start`: the lowest
index `≥ start` at which `ndl` occurs, or `none` where Python returns `-1`.
(Every `find` call in the repository passes a non-negative start, since
Python evaluates `-1 + 8` and `-1 + 7` to positive numbers.) -/
def pyFind (s ndl : String) (start : Nat) : Option Nat :=
  findFromAux ndl.data (s.data.drop start) start

/-- Python's slice `s[a:b]` for non-negative bounds. -/
def pySlice (s : String) (a b : Nat) : String :=
  String.mk ((s.data.drop a).take (b - a))

/-- Python's slice `s[a:]` for a non-negative bound. -/
def sliceFrom (s : String) (a : Nat) : String :=
  String.mk (s.data.drop a)

/-! ## JSON values and a model of `json.loads`

`json.loads` is a Python standard-library call; it is modelled here by an
executable recursive-descent parser for the JSON grammar as accepted by
Python's strict decoder (objects, arrays, strings with the standard
escapes including `\uXXXX`, numbers with optional sign / fraction /
exponent and the no-leading-zero rule, `true` / `false` / `null`).
Known deviations, none of which any theorem below relies on: Python's
decoder additionally accepts `NaN` / `Infinity` / `-Infinity`, combines
`\uXXXX` surrogate pairs, and rejects unescaped control characters inside
strings. Duplicate object keys follow Python's dict semantics
(last occurrence wins) via `jlookup`. -/

/-- A JSON number, kept unnormalised as `num / den` with `den` a power of
ten, so that all arithmetic is plain `Int`/`Nat` computation. -/
structure JNum where
  num : Int
  den : Nat
deriving DecidableEq, Repr

/-- JSON values as produced by the model of `json.loads`. -/
inductive Json where
  | null
  | bool (b : Bool)
  | num (n : JNum)
  | str (s : String)
  | arr (elems : List Json)
  | obj (fields : List (String × Json))

/-- `{` written without a brace token. -/
def lbrace : Char := Char.ofNat 123

/-- `}` written without a brace token. -/
def rbrace : Char := Char.ofNat 125

/-- The whitespace skipped between JSON tokens (RFC 8259, which is what
Python's decoder skips). -/
def isJsonWs (c : Char) : Bool :=
  c = ' ' || c = '\t' || c = '\n' || c = '\r'

/-- Value of a hexadecimal digit character. -/
def hexVal (c : Char) : Option Nat :=
  if '0' ≤ c ∧ c ≤ '9' then some (c.toNat - 48)
  else if 'a' ≤ c ∧ c ≤ 'f' then some (c.toNat - 87)
  else if 'A' ≤ c ∧ c ≤ 'F' then some (c.toNat - 55)
  else none

/-- Decimal value of a digit list. -/
def digitsToNat (l : List Char) : Nat :=
  l.foldl (fun a c => a * 10 + (c.toNat - 48)) 0

/-- Parse the body of a JSON string (the opening quote already consumed),
accumulating characters in reverse in `acc`. -/
def pStringAux : List Char → List Char → Option (String × List Char)
  | [], _ => none
  | c :: rest, acc =>
    if c = '"' then some (String.mk acc.reverse, rest)
    else if c = '\\' then
      match rest with
      | [] => none
      | e :: rest2 =>
        if e = '"' then pStringAux rest2 ('"' :: acc)
        else if e = '\\' then pStringAux rest2 ('\\' :: acc)
        else if e = '/' then pStringAux rest2 ('/' :: acc)
        else if e = 'n' then pStringAux rest2 ('\n' :: acc)
        else if e = 't' then pStringAux rest2 ('\t' :: acc)
        else if e = 'r' then pStringAux rest2 ('\r' :: acc)
        else if e = 'b' then pStringAux rest2 ('\x08' :: acc)
        else if e = 'f' then pStringAux rest2 ('\x0c' :: acc)
        else if e = 'u' then
          match rest2 with
          | h1 :: h2 :: h3 :: h4 :: rest3 =>
            match hexVal h1, hexVal h2, hexVal h3, hexVal h4 with
            | some a, some b, some c2, some d =>
              pStringAux rest3 (Char.ofNat (((a * 16 + b) * 16 + c2) * 16 + d) :: acc)
            | _, _, _, _ => none
          | _ => none
        else none
    else pStringAux rest (c :: acc)

/-- Parse a JSON string literal after its opening quote. -/
def pString (l : List Char) : Option (String × List Char) :=
  pStringAux l []

/-- Finish parsing a JSON number: `neg` is the sign, `I` the integer part,
`fr` the fraction digits, `r` the remaining input (possibly starting with
an exponent marker). -/
def finishNum (neg : Bool) (I : Nat) (fr : List Char) (r : List Char) :
    Option (JNum × List Char) :=
  let mant : Nat := I * 10 ^ fr.length + digitsToNat fr
  let sgn : Int := if neg then -1 else 1
  match r with
  | e :: r1 =>
    if e = 'e' ∨ e = 'E' then
      let (epos, r2) : Bool × List Char :=
        match r1 with
        | '+' :: rr => (true, rr)
        | '-' :: rr => (false, rr)
        | _ => (true, r1)
      let ed := r2.takeWhile Char.isDigit
      if ed.isEmpty then none
      else
        let r3 := r2.dropWhile Char.isDigit
        if epos then
          some (⟨sgn * mant * 10 ^ digitsToNat ed, 10 ^ fr.length⟩, r3)
        else
          some (⟨sgn * mant, 10 ^ fr.length * 10 ^ digitsToNat ed⟩, r3)
    else some (⟨sgn * mant, 10 ^ fr.length⟩, e :: r1)
  | [] => some (⟨sgn * mant, 10 ^ fr.length⟩, [])

/-- Parse a JSON number (strict grammar: optional `-`, integer part with
no leading zeros, optional fraction, optional exponent). -/
def pNumber (l : List Char) : Option (JNum × List Char) :=
  let (neg, l1) : Bool × List Char :=
    match l with
    | '-' :: rest => (true, rest)
    | _ => (false, l)
  match l1 with
  | [] => none
  | c :: _ =>
    if ¬ c.isDigit then none
    else
      let (intDigits, r1) : List Char × List Char :=
        if c = '0' then ([c], l1.tail)
        else (l1.takeWhile Char.isDigit, l1.dropWhile Char.isDigit)
      if c = '0' ∧ (r1.head?.elim false Char.isDigit) then none
      else
        let I : Nat := digitsToNat intDigits
        match r1 with
        | '.' :: r2 =>
          let fr := r2.takeWhile Char.isDigit
          if fr.isEmpty then none
          else finishNum neg I fr (r2.dropWhile Char.isDigit)
        | _ => finishNum neg I [] r1

/-- Parser mode: a top-level value, the continuation of an array after
`[`, or the continuation of an object after the opening brace. The
accumulators hold the elements parsed so far, in reverse. -/
inductive PMode where
  | top
  | arrCont (acc : List Json)
  | objCont (acc : List (String × Json))

/-- Fuel-indexed parser core; one function (rather than three mutually
recursive ones) so that it is structurally recursive on the fuel and
kernel-reducible. -/
def pAux : Nat → PMode → List Char → Option (Json × List Char)
  | 0, _, _ => none
  | fuel + 1, PMode.top, l =>
    match l.dropWhile isJsonWs with
    | [] => none
    | c :: rest =>
      if c = '[' then
        match rest.dropWhile isJsonWs with
        | ']' :: r2 => some (Json.arr [], r2)
        | _ => pAux fuel (PMode.arrCont []) rest
      else if c = lbrace then
        let r := rest.dropWhile isJsonWs
        if r.head? = some rbrace then some (Json.obj [], r.tail)
        else pAux fuel (PMode.objCont []) rest
      else if c = '"' then
        match pString rest with
        | some (s, r2) => some (Json.str s, r2)
        | none => none
      else if c = 't' then
        if "rue".data.isPrefixOf rest then some (Json.bool true, rest.drop 3) else none
      else if c = 'f' then
        if "alse".data.isPrefixOf rest then some (Json.bool false, rest.drop 4) else none
      else if c = 'n' then
        if "ull".data.isPrefixOf rest then some (Json.null, rest.drop 3) else none
      else
        match pNumber (c :: rest) with
        | some (n, r2) => some (Json.num n, r2)
        | none => none
  | fuel + 1, PMode.arrCont acc, l =>
    match pAux fuel PMode.top l with
    | none => none
    | some (v, r) =>
      match r.dropWhile isJsonWs with
      | ',' :: r2 => pAux fuel (PMode.arrCont (v :: acc)) r2
      | ']' :: r2 => some (Json.arr (v :: acc).reverse, r2)
      | _ => none
  | fuel + 1, PMode.objCont acc, l =>
    match l.dropWhile isJsonWs with
    | '"' :: rest =>
      match pString rest with
      | none => none
      | some (k, r1) =>
        match r1.dropWhile isJsonWs with
        | ':' :: r2 =>
          match pAux fuel PMode.top r2 with
          | none => none
          | some (v, r3) =>
            match r3.dropWhile isJsonWs with
            | ',' :: r4 => pAux fuel (PMode.objCont ((k, v) :: acc)) r4
            | c :: r4 =>
              if c = rbrace then some (Json.obj ((k, v) :: acc).reverse, r4) else none
            | [] => none
        | _ => none
    | _ => none

/-- Model of Python's `json.loads`: parse one JSON document and require
only trailing whitespace after it; `none` where Python raises
`json.JSONDecodeError`. -/
def parseJson (s : String) : Option Json :=
  match pAux (s.data.length + 2) PMode.top s.data with
  | some (j, rest) => if (rest.dropWhile isJsonWs).isEmpty then some j else none
  | none => none

/-- Key lookup in a parsed JSON object with Python-dict semantics: the
last occurrence of a duplicated key wins. -/
def jlookup : List (String × Json) → String → Option Json
  | [], _ => none
  | (k2, v) :: rest, k =>
    match jlookup rest k with
    | some r => some r
    | none => if k2 == k then some v else none


/-! ## The generate-code endpoint (main.py `generate_code`, lines 72-162)

The LLM call itself is external; the model takes the response text
`content` (`response.choices[0].message.content`) as input and embeds
what the endpoint does with it. `HTTPExc` models FastAPI's
`HTTPException(status_code=..., detail=...)`. -/

/-- FastAPI's `HTTPException` carrier: status code and detail string. -/
structure HTTPExc where
  status : Nat
  detail : String
deriving DecidableEq, Repr

/-- `str(e)` for a FastAPI/starlette `HTTPException`: starlette defines
`__str__` as the f-string `f"{self.status_code}: {self.detail}"`. -/
def strHTTPExc (e : HTTPExc) : String :=
  Nat.repr e.status ++ ": " ++ e.detail

/-- The fixed exception raised at main.py line 133 (and server.py line 71)
when the python-tagged block cannot be extracted. -/
def extractionErr : HTTPExc :=
  ⟨500, "Failed to extract code from response"⟩

/-- main.py lines 136-138: `code.find('from manim import')`, and if found,
`code = code[manim_index:]`. -/
def trimToManimFind (code : String) : String :=
  match pyFind code "from manim import" 0 with
  | some i => sliceFrom code i
  | none => code

/-- main.py lines 130-138 (identical in server.py lines 68-76): locate
`"```python"`, locate the next `"```"` starting from `code_start + 8`
(note: the marker is 9 characters long, so the slice below starts at the
marker's final `n`), raise `extractionErr` if either `find` returned
`-1`, else slice, `strip`, and cut to `'from manim import'`.
When `code_start` is `-1`, Python still evaluates
`content.find("```", 7)`, but the `or` test fails on `code_start` alone,
so returning the error directly is observationally identical. -/
def extract_code (content : String) : Except HTTPExc String :=
  match pyFind content "```python" 0 with
  | none => .error extractionErr
  | some cs =>
    match pyFind content "```" (cs + 8) with
    | none => .error extractionErr
    | some ce => .ok (trimToManimFind (pyStrip (pySlice content (cs + 8) ce)))

/-- main.py lines 141-151: locate `"```json"` (7 characters, and the slice
correctly uses `metadata_start + 7`), slice to the next `"```"`, `strip`,
`json.loads`; on a missing marker or a `JSONDecodeError` the metadata
defaults to the empty list. -/
def extract_metadata (content : String) : Json :=
  match pyFind content "```json" 0 with
  | none => Json.arr []
  | some ms =>
    match pyFind content "```" (ms + 7) with
    | none => Json.arr []
    | some me =>
      match parseJson (pyStrip (pySlice content (ms + 7) me)) with
      | some j => j
      | none => Json.arr []

/-- The body returned by `generate_code` on success: the endpoint returns
the plain dict `{"code": ..., "metadata": ...}` (the declared
`CodeGenerationResponse` model is not attached to the route, so no
validation is applied to `metadata`). -/
structure GenResult where
  code : String
  metadata : Json

/-- main.py lines 77-162: the whole response-handling of `generate_code`.
The `raise HTTPException` at line 133 happens inside the `try:` block, so
it is caught by `except Exception as e` at line 158 and re-raised as
`HTTPException(500, f"Failed to generate code: {str(e)}")`. -/
def generate_code (content : String) : Except HTTPExc GenResult :=
  match extract_code content with
  | .ok code => .ok ⟨code, extract_metadata content⟩
  | .error e => .error ⟨500, "Failed to generate code: " ++ strHTTPExc e⟩

/-- The condition under which main.py line 132 fires: no `"```python"`
marker, or no `"```"` after `code_start + 8`. The same pair of `find`
calls with the same `and`-test appears in `update_code` (main.py lines
263-265), so this is also exactly the condition under which `update_code`
takes its lenient `content.strip()` fallback — the response contains no
(complete) fenced code block. -/
def lacksCodeBlock (content : String) : Bool :=
  match pyFind content "```python" 0 with
  | none => true
  | some cs => (pyFind content "```" (cs + 8)).isNone

/-- The condition under which main.py lines 145-151 leave `metadata = []`:
json-tagged block absent, unterminated, or not parseable. -/
def jsonBlockBad (content : String) : Bool :=
  match pyFind content "```json" 0 with
  | none => true
  | some ms =>
    match pyFind content "```" (ms + 7) with
    | none => true
    | some me => (parseJson (pyStrip (pySlice content (ms + 7) me))).isNone

/-- The metadata of a `generate_code` result (`Json.null` on the error
branch, which returns no metadata at all). -/
def resultMetadata : Except HTTPExc GenResult → Json
  | .ok r => r.metadata
  | .error _ => Json.null

/-! ## The GenerationResult invariant (spec §3)

Modelled from the spec: "Invariant: `id` unique within the sequence;
`type` is one of the three enumerated values; numeric fields for
start/duration are non-negative." This is the spec-side predicate that
claim C4 compares against the code's behaviour; nothing in the source
enforces it. -/

/-- The string `id` of a metadata entry, when the entry is an object with
a string-valued `"id"` field. -/
def idString : Json → Option String
  | Json.obj fields =>
    match jlookup fields "id" with
    | some (Json.str s) => some s
    | _ => none
  | _ => none

/-- All strings in the list pairwise distinct. -/
def distinctStrings : List String → Bool
  | [] => true
  | s :: rest => !(rest.contains s) && distinctStrings rest

/-- One metadata entry as required by the spec's PropertyBlock invariant:
an object with a string `id`, a `type` among the three enumerated values,
and non-negative numeric `start` and `duration`. A `JNum` is non-negative
iff its (integer) numerator is, since its denominator is a positive power
of ten. -/
def entryOK : Json → Bool
  | Json.obj fields =>
    (match jlookup fields "id" with
      | some (Json.str _) => true
      | _ => false)
    && (match jlookup fields "type" with
      | some (Json.str t) => t == "text" || t == "shape" || t == "transform"
      | _ => false)
    && (match jlookup fields "start" with
      | some (Json.num n) => decide (0 ≤ n.num)
      | _ => false)
    && (match jlookup fields "duration" with
      | some (Json.num n) => decide (0 ≤ n.num)
      | _ => false)
  | _ => false

/-- The spec §3 invariant on a metadata value: an array of well-formed
entries with pairwise-distinct ids. -/
def metadataOK : Json → Bool
  | Json.arr entries => entries.all entryOK && distinctStrings (entries.filterMap idString)
  | _ => false

/-! ## The update-code endpoint (main.py `update_code`, lines 242-277) -/

/-- Python's `str.splitlines()` restricted to the `\n`, `\r\n` and `\r`
line boundaries (the generated code never contains the exotic boundary
characters Python additionally splits on). No trailing empty line is
produced for a trailing newline, matching Python. -/
def splitlinesAux : List Char → List Char → List (List Char)
  | [], acc => if acc.isEmpty then [] else [acc.reverse]
  | '\r' :: '\n' :: rest, acc => acc.reverse :: splitlinesAux rest []
  | '\r' :: rest, acc => acc.reverse :: splitlinesAux rest []
  | '\n' :: rest, acc => acc.reverse :: splitlinesAux rest []
  | c :: rest, acc => splitlinesAux rest (c :: acc)

/-- `'\n'.join(lines)`. -/
def joinLines (ls : List (List Char)) : List Char :=
  (List.intersperse ['\n'] ls).flatten

/-- main.py lines 267-272: split into lines, find the first line whose
stripped form starts with `'from manim import'`, and keep the lines from
it on, joined with `'\n'`; if no such line exists the loop never breaks
and the code is left unchanged. -/
def trimToManimLines (code : String) : String :=
  let lines := splitlinesAux code.data []
  match lines.findIdx? (fun l => "from manim import".data.isPrefixOf (stripChars l)) with
  | some i => String.mk (joinLines (lines.drop i))
  | none => code

/-- main.py lines 262-274: the response handling of `update_code`. Same
`find`/`find` pair (with the same `code_start + 8` start) as
`generate_code`, but on a missing block it falls back to
`content.strip()` instead of raising. -/
def update_code_extract (content : String) : String :=
  match pyFind content "```python" 0 with
  | none => pyStrip content
  | some cs =>
    match pyFind content "```" (cs + 8) with
    | none => pyStrip content
    | some ce => trimToManimLines (pyStrip (pySlice content (cs + 8) ce))

/-- The `update_code` endpoint given the LLM response text: the
extraction path raises no exception, so the `except` clause (which only
ever sees failures of the LLM call itself) is never reached and the
endpoint returns `{"code": code}` for every response text. -/
def update_code (content : String) : Except HTTPExc String :=
  .ok (update_code_extract content)

/-! ## The Scene-Name Resolver and the generate-animation endpoint
(main.py `generate_animation`, lines 164-233; server.py lines 84-164 is
identical in every aspect used below except that it moves the artifact to
`outputs/temp/`). -/

/-- The character class of the regex `\w` (ASCII fragment; Python's
regex is Unicode-aware, but any match of the scene regex must contain the
literal `"(Scene):"`, so the theorems below do not depend on this). -/
def isWordChar (c : Char) : Bool :=
  c.isAlphanum || c = '_'

/-- The literal tail of the scene regex, `"(Scene):"`. -/
def sceneChars : List Char := "(Scene):".data

/-- One anchored attempt of `re.search(r'class\s+(\w+)\(Scene\):', code)`
at the start of `l`: the literal `class`, one or more `\s`, one or more
`\w` (captured), then the literal `(Scene):`. Because `\s` and `\w` are
disjoint character classes followed by characters outside them, the
regex engine's greedy matching never backtracks here, so maximal munch
(`takeWhile`/`dropWhile`) is exact. -/
def matchSceneAt (l : List Char) : Option (List Char) :=
  if "class".data.isPrefixOf l then
    if ((l.drop 5).takeWhile isPySpace).isEmpty then none
    else
      if (((l.drop 5).dropWhile isPySpace).takeWhile isWordChar).isEmpty then none
      else if sceneChars.isPrefixOf (((l.drop 5).dropWhile isPySpace).dropWhile isWordChar) then
        some (((l.drop 5).dropWhile isPySpace).takeWhile isWordChar)
      else none
  else none

/-- `re.search` tries each start position left to right and returns the
first match. -/
def searchScene : List Char → Option (List Char)
  | [] => none
  | c :: rest =>
    match matchSceneAt (c :: rest) with
    | some w => some w
    | none => searchScene rest

/-- main.py lines 177-178: the scene name is group 1 of the first match,
or `none` when the pattern does not occur. -/
def resolveSceneName (code : String) : Option String :=
  (searchScene code.data).map fun w => String.mk w

/-- main.py `AnimationRequest` (lines 31-34). -/
structure AnimationRequest where
  code : String
  quality : String
  format : String

/-- main.py `AnimationResponse` (lines 36-38); the duration is the JSON
number read from `animation.json` (coerced to float by pydantic). -/
structure AnimationResponse where
  output_path : String
  duration : JNum
deriving DecidableEq, Repr

/-- main.py lines 169-175 and 182: `quality_settings.get(request.quality,
'-qm')` — the five-entry dict with `'-qm'` as the default for any other
key. -/
def quality_flag (q : String) : String :=
  if q = "low" then "-ql"
  else if q = "medium" then "-qm"
  else if q = "high" then "-qh"
  else if q = "production" then "-qp"
  else if q = "4k" then "-qk"
  else "-qm"

/-- The observable outcome of the external world during one
`generate_animation` request: the `manim` subprocess result
(`returncode`, captured `stderr`), the basenames found by
`Path(temp_dir).rglob(f"animation*.{format}")` in traversal order, and
the content of `temp_dir/animation.json` when that file exists. -/
structure RenderWorld where
  returncode : Int
  stderr : String
  outputFiles : List String
  animationJson : Option String

/-- An exception flowing to `except Exception as e` in
`generate_animation`: either an `HTTPException` raised by the endpoint
itself, or some other Python exception (`json.JSONDecodeError`,
`AttributeError`, pydantic validation, ...) whose exact message text no
theorem below depends on. -/
inductive PyErr where
  | http (e : HTTPExc)
  | other (msg : String)

/-- `str(e)` for an exception caught by the `except` clause. -/
def strPyErr : PyErr → String
  | .http e => strHTTPExc e
  | .other m => m

/-- main.py lines 209-216: read `animation.json` if it exists and take
`scene_data.get("duration", 0)`; a missing file yields duration `0` with
no error, while an unreadable or non-object file raises out of the `try`
block (`json.load` / `.get` / pydantic coercion). -/
def durationOf : Option String → Except PyErr JNum
  | none => .ok ⟨0, 1⟩
  | some s =>
    match parseJson s with
    | none => .error (.other "json.JSONDecodeError from json.load")
    | some (Json.obj fields) =>
      match jlookup fields "duration" with
      | none => .ok ⟨0, 1⟩
      | some (Json.num n) => .ok n
      | some _ => .error (.other "pydantic validation error for duration")
    | some _ => .error (.other "AttributeError: .get on a non-dict")

/-- main.py lines 181-227, the `try:` body after the scene name has been
resolved: fail with `"Manim error: " + stderr` on a non-zero exit code,
fail with `"No output file generated"` when the recursive glob finds
nothing, read the optional duration, and move `output_files[0]` into the
`outputs` directory, answering with its new path. -/
def render_body (w : RenderWorld) : Except PyErr AnimationResponse :=
  if w.returncode ≠ 0 then .error (.http ⟨500, "Manim error: " ++ w.stderr⟩)
  else
    match w.outputFiles with
    | [] => .error (.http ⟨500, "No output file generated"⟩)
    | f :: _ =>
      match durationOf w.animationJson with
      | .error e => .error e
      | .ok d => .ok ⟨"outputs/" ++ f, d⟩

/-- main.py lines 164-233: `generate_animation`. The scene-class check
(lines 176-180) happens before the `try:` block, so its
`HTTPException` propagates unwrapped; every exception inside the block —
including the `HTTPException`s raised at lines 192 and 203 — is caught at
line 229 and re-raised as
`HTTPException(500, f"Animation generation failed: {str(e)}")`. -/
def generate_animation (req : AnimationRequest) (w : RenderWorld) :
    Except HTTPExc AnimationResponse :=
  match resolveSceneName req.code with
  | none => .error ⟨500, "Could not find a Scene class in the code."⟩
  | some _ =>
    match render_body w with
    | .ok r => .ok r
    | .error e => .error ⟨500, "Animation generation failed: " ++ strPyErr e⟩

/-! ## API-key resolution (main.py line 75, server.py line 47, and
main.py line 64 in `validate_key`) -/

/-- `request.api_key or os.getenv("OPENAI_API_KEY")`: Python's `or`
returns its right operand when the left is falsy, and both `None` and the
empty string are falsy, so an explicit empty-string key falls back to the
environment default exactly like an omitted key. `none` models both an
absent request field and an unset environment variable. -/
def effective_api_key (requestKey envKey : Option String) : Option String :=
  match requestKey with
  | none => envKey
  | some k => if k = "" then envKey else some k

/-- A concrete LLM response whose json-tagged block parses but violates
every part of the spec invariant: a duplicated id, a `type` outside the
enumeration, and a negative `start`. -/
def c4content : String :=
  "```python\nfrom manim import *\n```\n```json\n[\x7b\"id\":\"a\",\"type\":\"bogus\",\"start\":-1,\"duration\":2\x7d,\x7b\"id\":\"a\",\"type\":\"text\",\"start\":0,\"duration\":1\x7d]\n```"

/-- The metadata value `json.loads` produces for the json block of
`c4content`. -/
def c4meta : Json :=
  Json.arr
    [Json.obj [("id", Json.str "a"), ("type", Json.str "bogus"),
               ("start", Json.num ⟨-1, 1⟩), ("duration", Json.num ⟨2, 1⟩)],
     Json.obj [("id", Json.str "a"), ("type", Json.str "text"),
               ("start", Json.num ⟨0, 1⟩), ("duration", Json.num ⟨1, 1⟩)]]

/-! ## Helper lemmas for the Scene-Name Resolver -/

/-- A successful anchored match necessarily passed the
`"(Scene):".isPrefixOf` test on a suffix of its input, so the token
occurs in the input. -/
theorem matchSceneAt_hasToken {l w : List Char}
    (h : matchSceneAt l = some w) : sceneChars <:+: l := by
  unfold matchSceneAt at h
  split at h
  · split at h
    · exact absurd h (by simp)
    · split at h
      · exact absurd h (by simp)
      · split at h
        · rename_i hp
          have hpre : sceneChars <+: ((l.drop 5).dropWhile isPySpace).dropWhile isWordChar :=
            List.isPrefixOf_iff_prefix.mp hp
          have hsuf : ((l.drop 5).dropWhile isPySpace).dropWhile isWordChar <:+ l :=
            ((List.dropWhile_suffix _).trans (List.dropWhile_suffix _)).trans
              (List.drop_suffix 5 l)
          exact List.infix_iff_prefix_suffix.mpr ⟨_, hpre, hsuf⟩
        · exact absurd h (by simp)
  · exact absurd h (by simp)

/-- If the position-by-position search succeeds, the `"(Scene):"` token
occurs somewhere in the input. -/
theorem searchScene_hasToken : ∀ {l w : List Char},
    searchScene l = some w → sceneChars <:+: l := by
  intro l
  induction l with
  | nil => intro w h; exact absurd h (by simp [searchScene])
  | cons c rest ih =>
    intro w h
    unfold searchScene at h
    cases hm : matchSceneAt (c :: rest) with
    | some w2 => exact matchSceneAt_hasToken hm
    | none =>
      rw [hm] at h
      exact List.infix_cons (ih h)

/-! ## Claim theorems -/

/-- C1: the claim states that the extraction in `generate_code` returns
exactly the trimmed inner content of a well-formed ```python block. The
code is off by one — `"```python"` is 9 characters but the slice starts
at `code_start + 8` — so the final `n` of the marker is retained:
extracting from `"```python\nprint(1)\n```"` yields `"n\nprint(1)"`, not
`"print(1)"` (the slip is masked only when the block starts with
`from manim import`, which the later cut at line 136-138 then restores).
The claim's second half holds: with the opening fence present but no
closing fence after it, the endpoint fails (with the extraction error,
wrapped by the outer `except`). -/
theorem C1_extraction_off_by_one :
    generate_code "```python\nprint(1)\n```" = .ok ⟨"n\nprint(1)", Json.arr []⟩ ∧
    generate_code "```python\nprint(1)" =
      .error ⟨500, "Failed to generate code: 500: Failed to extract code from response"⟩ :=
  ⟨rfl, rfl⟩

/-- C2 counterexample: with a non-zero renderer exit code and captured
stderr `"boom"`, the user-facing detail is not the stderr text verbatim:
the raise site prefixes `"Manim error: "` and the `except Exception`
clause re-wraps the `HTTPException`, yielding
`"Animation generation failed: 500: Manim error: boom"`. -/
theorem C2_counterexample :
    generate_animation ⟨"class Foo(Scene):\n    pass", "medium", "mp4"⟩ ⟨1, "boom", [], none⟩ =
      .error ⟨500, "Animation generation failed: 500: Manim error: boom"⟩ ∧
    ("Animation generation failed: 500: Manim error: boom" : String) ≠ "boom" :=
  ⟨rfl, by decide⟩

/-- C2 (amended): for every request whose code contains a scene class and
every world in which the renderer exits non-zero, `generate_animation`
fails with HTTP 500 and a detail that is the captured stderr text
prefixed by the fixed wrapper
`"Animation generation failed: 500: Manim error: "` (the inner
`"Manim error: "` raise re-wrapped by the generic handler), rather than
the stderr verbatim. -/
theorem C2_amended_stderr_wrapped :
    ∀ (req : AnimationRequest) (w : RenderWorld),
      (resolveSceneName req.code).isSome = true → w.returncode ≠ 0 →
      generate_animation req w =
        .error ⟨500, "Animation generation failed: 500: Manim error: " ++ w.stderr⟩ := by
  intro req w hs hr
  obtain ⟨name, hn⟩ := Option.isSome_iff_exists.mp hs
  unfold generate_animation render_body
  rw [hn, if_pos hr]
  dsimp only
  simp only [strPyErr, strHTTPExc]
  rfl

/-- C2 witness: the amended statement at a concrete request and world. -/
theorem C2_witness :
    generate_animation ⟨"class A(Scene):\n    pass", "low", "gif"⟩ ⟨2, "err", [], none⟩ =
      .error ⟨500, "Animation generation failed: 500: Manim error: err"⟩ :=
  C2_amended_stderr_wrapped _ _ (by decide) (by decide)

/-- C3 counterexample: for a response with no fenced block the endpoint
does raise the fixed extraction error, but because that `HTTPException`
is raised inside the `try:` block it is caught by `except Exception` and
re-wrapped, so the user-facing detail is not the unmodified fixed
message. -/
theorem C3_counterexample :
    generate_code "no code here" =
      .error ⟨500, "Failed to generate code: 500: Failed to extract code from response"⟩ ∧
    extract_code "no code here" = .error extractionErr ∧
    ("Failed to generate code: 500: Failed to extract code from response" : String) ≠
      extractionErr.detail :=
  ⟨rfl, rfl, by decide⟩

/-- C3 (amended): for every response lacking the python fenced block
(marker absent, or no closing fence after `code_start + 8`),
`generate_code` fails with HTTP 500 and a detail that is the same fixed
string for every such response — but it is the wrapped form
`"Failed to generate code: 500: Failed to extract code from response"`,
the raise-site message modified by the generic exception handler. -/
theorem C3_amended_fixed_wrapped :
    ∀ content : String, lacksCodeBlock content = true →
      generate_code content =
        .error ⟨500, "Failed to generate code: 500: Failed to extract code from response"⟩ := by
  intro content h
  unfold lacksCodeBlock at h
  unfold generate_code extract_code
  cases hcs : pyFind content "```python" 0 with
  | none => rfl
  | some cs =>
    rw [hcs] at h
    dsimp only at h ⊢
    cases hce : pyFind content "```" (cs + 8) with
    | none => rfl
    | some ce => rw [hce] at h; simp at h

/-- C3 witness: the amended statement at a concrete fence-free response. -/
theorem C3_witness :
    generate_code "no fence" =
      .error ⟨500, "Failed to generate code: 500: Failed to extract code from response"⟩ :=
  C3_amended_fixed_wrapped "no fence" (by decide)

/-- C4 counterexample: `generate_code` succeeds on `c4content` and
returns its parsed metadata unchanged, although that metadata violates
the GenerationResult invariant (duplicate `id`, `type` not in
`{text, shape, transform}`, negative `start`). -/
theorem C4_counterexample :
    generate_code c4content = .ok ⟨"from manim import *", c4meta⟩ ∧
    metadataOK c4meta = false :=
  ⟨rfl, rfl⟩

/-- C4 (amended): the endpoint applies no validation whatsoever — every
successful `generate_code` result carries exactly the raw parse of the
json block (or the empty sequence), so the invariant holds only when the
LLM happens to emit conforming metadata. -/
theorem C4_amended_no_validation :
    ∀ (content : String) (r : GenResult), generate_code content = .ok r →
      r.metadata = extract_metadata content := by
  intro content r h
  unfold generate_code at h
  cases hec : extract_code content with
  | ok code => rw [hec] at h; cases h; rfl
  | error e => rw [hec] at h; exact absurd h (by simp)

/-- C4 witness: the amended statement at `c4content`. -/
theorem C4_witness :
    (GenResult.mk "from manim import *" c4meta).metadata = extract_metadata c4content :=
  C4_amended_no_validation c4content ⟨"from manim import *", c4meta⟩ rfl

/-- C5: whenever the model response contains no fenced code block —
the opening `"```python"` marker is absent, or it is present but no
closing `"```"` follows it (`lacksCodeBlock`, the exact `and`-test of
main.py lines 263-265) — `update_code` returns the whole response text
stripped of surrounding whitespace, and the request succeeds. -/
theorem C5_lenient_fallback :
    ∀ content : String, lacksCodeBlock content = true →
      update_code content = .ok (pyStrip content) := by
  intro content h
  unfold lacksCodeBlock at h
  unfold update_code update_code_extract
  cases hcs : pyFind content "```python" 0 with
  | none => rfl
  | some cs =>
    rw [hcs] at h
    dsimp only at h ⊢
    cases hce : pyFind content "```" (cs + 8) with
    | none => rfl
    | some ce => rw [hce] at h; simp at h

/-- C5 witness: a response with an opening fence but no closing fence is
returned trimmed (here unchanged), not failed. -/
theorem C5_witness : update_code "```python\nx = 1" = .ok "```python\nx = 1" :=
  C5_lenient_fallback "```python\nx = 1" (by decide)

/-- C6: the Scene-Name Resolver returns `"Foo"` on
`"class Foo(Scene):\n    pass"`, and returns `none` on every code text in
which the `"(Scene):"` token does not occur (any match of the regex
`class\s+(\w+)\(Scene\):` would have to contain that literal token). -/
theorem C6_scene_resolver :
    resolveSceneName "class Foo(Scene):\n    pass" = some "Foo" ∧
    ∀ code : String, ¬ (sceneChars <:+: code.data) → resolveSceneName code = none := by
  refine ⟨rfl, ?_⟩
  intro code h
  cases hs : searchScene code.data with
  | none => simp [resolveSceneName, hs]
  | some w => exact absurd (searchScene_hasToken hs) h

/-- C6 witness: code with no `"(Scene):"` token resolves to `none`. -/
theorem C6_witness : resolveSceneName "print(1)" = none :=
  C6_scene_resolver.2 "print(1)" (by decide)

/-- C7: the five named quality values map to their fixed flags, and any
other value maps to the same flag as `"medium"` (the `.get` default
`'-qm'`), silently. -/
theorem C7_quality_mapping :
    (quality_flag "low" = "-ql" ∧ quality_flag "medium" = "-qm" ∧
      quality_flag "high" = "-qh" ∧ quality_flag "production" = "-qp" ∧
      quality_flag "4k" = "-qk") ∧
    ∀ q : String, q ∉ (["low", "medium", "high", "production", "4k"] : List String) →
      quality_flag q = quality_flag "medium" := by
  refine ⟨⟨rfl, rfl, rfl, rfl, rfl⟩, ?_⟩
  intro q hq
  simp only [List.mem_cons, List.not_mem_nil, or_false, not_or] at hq
  obtain ⟨h1, h2, h3, h4, h5⟩ := hq
  unfold quality_flag
  rw [if_neg h1, if_neg h2, if_neg h3, if_neg h4, if_neg h5]
  decide

/-- C7 witness: an unrecognized value falls back to the medium flag. -/
theorem C7_witness :
    ("ultra" : String) ∉ (["low", "medium", "high", "production", "4k"] : List String) ∧
    quality_flag "ultra" = quality_flag "medium" :=
  ⟨by decide, C7_quality_mapping.2 "ultra" (by decide)⟩

/-- C8: whenever the render pipeline reaches a successful exit (scene
class found, exit code 0, at least one output artifact) and no
`animation.json` exists in the scratch directory, the endpoint succeeds
and the response duration is exactly 0; the file's absence never fails
the request. -/
theorem C8_missing_duration_json :
    ∀ (req : AnimationRequest) (w : RenderWorld) (f : String) (fs : List String),
      (resolveSceneName req.code).isSome = true → w.returncode = 0 →
      w.outputFiles = f :: fs → w.animationJson = none →
      generate_animation req w = .ok ⟨"outputs/" ++ f, ⟨0, 1⟩⟩ := by
  intro req w f fs hs h0 hf hj
  obtain ⟨name, hn⟩ := Option.isSome_iff_exists.mp hs
  unfold generate_animation render_body
  rw [hn, h0, hf, hj]
  simp [durationOf]

/-- C8 witness: a concrete successful render with no `animation.json`. -/
theorem C8_witness :
    generate_animation ⟨"class Foo(Scene):\n    pass", "medium", "mp4"⟩
        ⟨0, "", ["animation.mp4"], none⟩ =
      .ok ⟨"outputs/animation.mp4", ⟨0, 1⟩⟩ :=
  C8_missing_duration_json _ _ "animation.mp4" [] (by decide) rfl rfl rfl

/-- C9: for every response on which the code extraction succeeds, if the
json-tagged block is absent, unterminated, or fails to parse, the
endpoint still succeeds and its metadata is the empty sequence — the
code block alone determines success. -/
theorem C9_bad_json_defaults_empty :
    ∀ content : String, lacksCodeBlock content = false → jsonBlockBad content = true →
      (generate_code content).isOk = true ∧
      resultMetadata (generate_code content) = Json.arr [] := by
  intro content h1 h2
  have hmeta : extract_metadata content = Json.arr [] := by
    unfold jsonBlockBad at h2
    unfold extract_metadata
    cases hms : pyFind content "```json" 0 with
    | none => rfl
    | some ms =>
      rw [hms] at h2
      dsimp only at h2 ⊢
      cases hme : pyFind content "```" (ms + 7) with
      | none => rfl
      | some me =>
        rw [hme] at h2
        dsimp only at h2 ⊢
        cases hp : parseJson (pyStrip (pySlice content (ms + 7) me)) with
        | none => rfl
        | some j => rw [hp] at h2; simp at h2
  unfold lacksCodeBlock at h1
  cases hcs : pyFind content "```python" 0 with
  | none => rw [hcs] at h1; simp at h1
  | some cs =>
    rw [hcs] at h1
    dsimp only at h1
    cases hce : pyFind content "```" (cs + 8) with
    | none => rw [hce] at h1; simp at h1
    | some ce =>
      unfold generate_code extract_code
      rw [hcs]
      dsimp only
      rw [hce]
      dsimp only
      exact ⟨rfl, hmeta⟩

/-- C9 witness: a response with a python block and no json block. -/
theorem C9_witness :
    (generate_code "```python\nx = 1\n```").isOk = true ∧
    resultMetadata (generate_code "```python\nx = 1\n```") = Json.arr [] :=
  C9_bad_json_defaults_empty "```python\nx = 1\n```" (by decide) (by decide)

/-- C10: a request `api_key` equal to the empty string resolves exactly
like an omitted key — both fall through Python's falsy `or` to the
process-environment default, whatever that is. -/
theorem C10_empty_key_is_omitted :
    ∀ envKey : Option String,
      effective_api_key (some "") envKey = envKey ∧
      effective_api_key none envKey = envKey :=
  fun _ => ⟨rfl, rfl⟩
